import Mathlib

/-!
Verification of the quarry FFI bridge (src/native/src/quarry_ffi.c).

The C file adapts host-side (reference-counted, fallible) callbacks to the
embedded SQL engine callback interface.  This development gives a shallow
embedding of the bridge functions that the frozen claims are about:

  * the value codec (sqlite_value_to_lean / lean_value_to_sqlite_result),
  * the aggregate function adapter (aggregate_step_callback /
    aggregate_final_callback),
  * the virtual table module (build_index_info, apply_index_output,
    vtab_best_index, vtab_filter, vtab_next, vtab_eof, vtab_column,
    vtab_rowid, vtab_update),
  * the backup and blob session wrappers (quarry_backup_step,
    quarry_backup_finish, quarry_blob_close, quarry_blob_read,
    quarry_blob_write, quarry_blob_reopen).

Host computations (deferred fallible actions) are embedded as Except-valued
functions; calls into the engine are made explicit as returned data (result
codes, traces of reference-count events, flags recording whether a native
entry point was touched).  IEEE doubles are relayed by the C code without
inspection, so they are embedded by their 64-bit pattern.
-/

namespace Quarry

/-! ## Value codec -/

/-- The host-side tagged value.  The C file documents the layout:
tag 0 = null, 1 = integer, 2 = real, 3 = text, 4 = blob.  The integer
payload is an arbitrary-precision Int on the host side; the real payload
is an IEEE double relayed untouched, embedded here by its bit pattern;
text and blob payloads are owned byte sequences. -/
inductive Value where
  | null : Value
  | integer (n : Int) : Value
  | real (bits : Nat) : Value
  | text (bytes : List Nat) : Value
  | blob (bytes : List Nat) : Value
  deriving DecidableEq

/-- An engine-native dynamically typed value (sqlite3_value): SQL NULL,
signed 64-bit integer, IEEE double (by bit pattern), UTF-8 text bytes,
or blob bytes. -/
inductive SqliteValue where
  | null : SqliteValue
  | integer (n : Int) : SqliteValue
  | float (bits : Nat) : SqliteValue
  | text (bytes : List Nat) : SqliteValue
  | blob (bytes : List Nat) : SqliteValue
  deriving DecidableEq

/-- Two-sided complement wrap into the signed 64-bit range, the effect of
the runtime conversion lean_int64_of_int on an out-of-range Int. -/
def toInt64 (n : Int) : Int := (n + 2 ^ 63) % 2 ^ 64 - 2 ^ 63

/-- The signed 64-bit range. -/
def int64Range (n : Int) : Prop := -(2 ^ 63) ≤ n ∧ n < 2 ^ 63

instance (n : Int) : Decidable (int64Range n) := by
  unfold int64Range
  infer_instance

/-- Embeds sqlite_value_to_lean: marshal an engine value to the host tagged
value.  Integer payloads convert exactly (lean_int64_to_int); float bits are
relayed; text and blob bytes are copied.  The C switch maps every type other
than INTEGER, FLOAT, TEXT, BLOB (that is, SQLITE_NULL) to the null tag. -/
def sqlite_value_to_host : SqliteValue → Value
  | .integer n => .integer n
  | .float bits => .real bits
  | .text bytes => .text bytes
  | .blob bytes => .blob bytes
  | .null => .null

/-- Embeds lean_value_to_sqlite_result: marshal a host tagged value into the
native result sink.  The integer payload goes through lean_int64_of_int,
which wraps into the 64-bit signed range; float bits are relayed; text bytes
(string size minus the terminator) and blob bytes are copied. -/
def lean_value_to_sqlite_result : Value → SqliteValue
  | .null => .null
  | .integer n => .integer (toInt64 n)
  | .real bits => .float bits
  | .text bytes => .text bytes
  | .blob bytes => .blob bytes

/-- Embeds build_args_array: convert each positional argument independently,
preserving call order. -/
def build_args_array (args : List SqliteValue) : List Value :=
  args.map sqlite_value_to_host

/-- A host value is well formed when its integer payload (if any) fits the
64-bit signed range the data model prescribes for the Integer kind. -/
def Value.wf : Value → Prop
  | .integer n => int64Range n
  | _ => True

/-- An engine value is well formed when its integer payload fits the 64-bit
signed range; every value produced by the engine satisfies this. -/
def SqliteValue.wf : SqliteValue → Prop
  | .integer n => int64Range n
  | _ => True

theorem toInt64_eq_self {n : Int} (h : int64Range n) : toInt64 n = n := by
  unfold toInt64
  unfold int64Range at h
  omega

/-- C1: for every tagged value of the five kinds, marshaling from the engine
representation to the host representation and back is the identity, in both
directions, for all payloads in range (which covers empty text, empty blob,
zero, negative integers, and any IEEE double bit pattern). -/
theorem C1_roundtrip (v : Value) (nv : SqliteValue)
    (hv : v.wf) (hnv : nv.wf) :
    sqlite_value_to_host (lean_value_to_sqlite_result v) = v ∧
    lean_value_to_sqlite_result (sqlite_value_to_host nv) = nv := by
  constructor
  · cases v with
    | integer n =>
        simp only [lean_value_to_sqlite_result, sqlite_value_to_host]
        rw [toInt64_eq_self hv]
    | null => rfl
    | real bits => rfl
    | text bytes => rfl
    | blob bytes => rfl
  · cases nv with
    | integer n =>
        simp only [sqlite_value_to_host, lean_value_to_sqlite_result]
        rw [toInt64_eq_self hnv]
    | null => rfl
    | float bits => rfl
    | text bytes => rfl
    | blob bytes => rfl

/-- Witness for C1 at a structural edge: the most negative 64-bit integer
round-trips host-to-native-to-host, and an empty engine blob round-trips
native-to-host-to-native. -/
theorem C1_roundtrip_witness :
    sqlite_value_to_host (lean_value_to_sqlite_result (Value.integer (-(2 ^ 63))))
      = Value.integer (-(2 ^ 63)) ∧
    lean_value_to_sqlite_result (sqlite_value_to_host (SqliteValue.blob []))
      = SqliteValue.blob [] :=
  C1_roundtrip (Value.integer (-(2 ^ 63))) (SqliteValue.blob [])
    (by constructor <;> norm_num) trivial

/-! ## Aggregate function adapter -/

/-- The three host computations of a registered aggregate, as stored in
AggregateUdfContext: init, step and final.  Each is a deferred fallible
host computation; init is effectful, so its successive invocations are
embedded as a function of the invocation count. -/
structure AggUdf (α : Type) where
  init : Nat → Except Unit α
  step : α → List Value → Except Unit α
  final : α → Except Unit Value

/-- The engine-owned per-group aggregate context: the accumulator slot
(NULL when absent) plus a ghost counter of init invocations used to state
retry properties. -/
structure AggState (α : Type) where
  acc : Option α
  initCalls : Nat
  deriving DecidableEq

/-- A fresh aggregate context: sqlite3_aggregate_context zero-initializes
the slot, so the accumulator starts absent. -/
def initialAggState {α : Type} : AggState α := { acc := none, initCalls := 0 }

/-- Embeds aggregate_step_callback.  If the slot is empty, init is invoked
(and the ghost counter bumped); on init failure the function returns with
the slot still empty.  Otherwise step runs on the current accumulator and
the converted argument list; only on success does its result replace the
accumulator.  The Bool records whether sqlite3_result_error was called:
the C step callback never calls it, so it is false on every path. -/
def aggregate_step_callback {α : Type} (udf : AggUdf α) (st : AggState α)
    (args : List SqliteValue) : AggState α × Bool :=
  let st1 :=
    if st.acc.isNone then
      match udf.init st.initCalls with
      | .ok a => { acc := some a, initCalls := st.initCalls + 1 }
      | .error _ => { acc := none, initCalls := st.initCalls + 1 }
    else st
  match st1.acc with
  | none => (st1, false)
  | some a =>
    match udf.step a (build_args_array args) with
    | .ok a2 => ({ st1 with acc := some a2 }, false)
    | .error _ => (st1, false)

/-- Run a whole aggregate group: one step callback per row, starting from
the fresh context. -/
def run_agg_group {α : Type} (udf : AggUdf α) (rows : List (List SqliteValue)) :
    AggState α :=
  rows.foldl (fun st args => (aggregate_step_callback udf st args).1) initialAggState

/-- Outcome of the final callback: the value written to the native result
sink (none when an error was reported instead), whether the host final
computation was invoked, and whether sqlite3_result_error was called. -/
structure AggFinalResult where
  result : Option SqliteValue
  finalInvoked : Bool
  errorSurfaced : Bool
  deriving DecidableEq

/-- Embeds aggregate_final_callback.  With no accumulator (zero-row group,
or init never succeeded) the native result is NULL and final is not
invoked.  Otherwise final runs once; its value is marshaled to the result
sink on success, a generic error is reported on failure; the accumulator
reference is then released unconditionally. -/
def aggregate_final_callback {α : Type} (udf : AggUdf α) (st : AggState α) :
    AggFinalResult × AggState α :=
  match st.acc with
  | none =>
      ({ result := some SqliteValue.null, finalInvoked := false,
         errorSurfaced := false }, st)
  | some a =>
    match udf.final a with
    | .ok v =>
        ({ result := some (lean_value_to_sqlite_result v), finalInvoked := true,
           errorSurfaced := false }, { st with acc := none })
    | .error _ =>
        ({ result := none, finalInvoked := true, errorSurfaced := true },
         { st with acc := none })

/-- An aggregate whose init computation fails on every invocation, used to
observe the retry behaviour of the step callback. -/
def aggAlwaysFailInit : AggUdf Unit :=
  { init := fun _ => .error ()
    step := fun a _ => .ok a
    final := fun _ => .ok Value.null }

/-- C2 counterexample: the claim says that after the first step call fails
to initialize the accumulator, init is never invoked again for that group.
On the code, a later step call finds the slot still empty and re-enters the
initialization branch.  Concretely: with an always-failing init, after two
step calls the init invocation counter is 2, not 1. -/
theorem C2_counterexample :
    ((aggregate_step_callback aggAlwaysFailInit
        (aggregate_step_callback aggAlwaysFailInit initialAggState []).1 []).1).initCalls = 2 ∧
    (2 : Nat) ≠ 1 := by
  constructor
  · rfl
  · decide

/-- C2 amended: when a step callback finds the accumulator absent and the
(re-)invoked init computation fails, no error is surfaced and the
accumulator remains absent, but init is invoked once more (the failure is
swallowed yet retried on every subsequent step call for the group). -/
theorem C2_amended {α : Type} (udf : AggUdf α) (st : AggState α)
    (args : List SqliteValue) (h0 : st.acc = none)
    (h1 : udf.init st.initCalls = .error ()) :
    aggregate_step_callback udf st args
      = ({ acc := none, initCalls := st.initCalls + 1 }, false) := by
  unfold aggregate_step_callback
  rw [h0]
  simp only [Option.isNone_none, if_pos, h1]

/-- Witness for C2 amended: the fresh group with the always-failing init,
stepped once, keeps an empty accumulator, surfaces no error, and has
invoked init exactly once. -/
theorem C2_amended_witness :
    aggregate_step_callback aggAlwaysFailInit initialAggState []
      = ({ acc := none, initCalls := 1 }, false) :=
  C2_amended aggAlwaysFailInit initialAggState [] rfl rfl

/-- C7: for a zero-row group (no step call ever ran), the final callback
never invokes the host final computation and the native result is NULL. -/
theorem C7_zero_row_group {α : Type} (udf : AggUdf α) :
    aggregate_final_callback udf (run_agg_group udf [])
      = ({ result := some SqliteValue.null, finalInvoked := false,
           errorSurfaced := false }, initialAggState) := rfl

/-! ## Virtual table module: query-planner data exchange -/

/-- One entry of the native index-info constraint array: the constrained
column (an int; -1 denotes the rowid), the comparison operator code (an
unsigned byte) and the usability flag. -/
structure NativeConstraint where
  iColumn : Int
  op : Nat
  usable : Bool
  deriving DecidableEq

/-- One entry of the native index-info order-by array: the column (an int;
-1 denotes the rowid) and the descending flag. -/
structure NativeOrderBy where
  iColumn : Int
  desc : Bool
  deriving DecidableEq

/-- The native sqlite3_index_info structure, restricted to the fields the
bridge reads (the constraint and order-by arrays) and writes (the chosen
plan index, cost estimate and row estimate).  The estimates are modelled
by their numeric value (the C stores the double constant 1000000.0). -/
structure NativeIndexInfo where
  aConstraint : List NativeConstraint
  aOrderBy : List NativeOrderBy
  idxNum : Int
  estimatedCost : Nat
  estimatedRows : Nat
  deriving DecidableEq

/-- The translated per-constraint record handed to the host planner, as
documented in the C file: column, operator code, usability flag. -/
structure VTableConstraint where
  column : Nat
  op : Nat
  usable : Bool
  deriving DecidableEq

/-- The translated per-order-by record handed to the host planner. -/
structure VTableOrderBy where
  column : Nat
  desc : Bool
  deriving DecidableEq

/-- The planner-input structure handed to the host planner computation. -/
structure VTableIndexInfo where
  constraints : List VTableConstraint
  orderBy : List VTableOrderBy
  deriving DecidableEq

/-- Modelled from the spec: the host planner output type VTableIndexOutput
is declared in the repository Lean sources, which are not under src/; the
spec says it carries an opaque plan index together with cost and row
estimates.  The C bridge never reads any of its fields. -/
structure VTableIndexOutput where
  idxNum : Int
  estimatedCost : Nat
  estimatedRows : Nat
  deriving DecidableEq

/-- Embeds build_index_info.  Each constraint is translated with its
column clamped at zero (the C writes iColumn when nonnegative and 0
otherwise), its operator code and its usability flag; each order-by entry
is translated with its column stored through lean_box, which keeps the low
63 bits of the machine word, and its descending flag. -/
def build_index_info (p : NativeIndexInfo) : VTableIndexInfo :=
  { constraints := p.aConstraint.map (fun c =>
      { column := if (0 : Int) ≤ c.iColumn then c.iColumn.toNat else 0
        op := c.op
        usable := c.usable })
    orderBy := p.aOrderBy.map (fun o =>
      { column := (o.iColumn % 2 ^ 63).toNat
        desc := o.desc }) }

/-- Embeds apply_index_output.  The planner output is deliberately ignored
(the C casts it to void); the native structure is populated with the fixed
full-scan plan: plan index 0, cost estimate 1000000.0, row estimate
1000000. -/
def apply_index_output (p : NativeIndexInfo) (output : VTableIndexOutput) :
    NativeIndexInfo :=
  let _ := output
  { p with idxNum := 0, estimatedCost := 1000000, estimatedRows := 1000000 }

/-- Embeds vtab_best_index: translate the index info, run the host planner
computation on the table instance, fail with a generic error on host
failure, and otherwise apply the (ignored) output to the native
structure. -/
def vtab_best_index {τ : Type}
    (best_index_fn : τ → VTableIndexInfo → Except Unit VTableIndexOutput)
    (table_data : τ) (p : NativeIndexInfo) : Except Unit NativeIndexInfo :=
  match best_index_fn table_data (build_index_info p) with
  | .error _ => .error ()
  | .ok output => .ok (apply_index_output p output)

/-- Embeds vtab_filter: release any previous cursor state, then invoke the
host open computation on the table instance, the plan index received from
the engine, and the converted filter arguments.  The result is the native
status code (0 = SQLITE_OK, 1 = SQLITE_ERROR), the new cursor state (none
on failure), and the exact pair of plan index and argument list handed to
the host open computation. -/
def vtab_filter {τ σ : Type}
    (open_fn : τ → Int → List Value → Except Unit σ)
    (table_data : τ) (cursor_state : Option σ) (idxNum : Int)
    (args : List SqliteValue) :
    Int × Option σ × (Int × List Value) :=
  let _ := cursor_state
  match open_fn table_data idxNum (build_args_array args) with
  | .error _ => (1, none, (idxNum, build_args_array args))
  | .ok s => (0, some s, (idxNum, build_args_array args))

/-- C3 counterexample: the claim says the filter call receives the plan
index returned by the planner computation.  Here the planner computation
returns plan index 7, yet best-index populates the native plan index with
0, and the filter call therefore hands 0, not 7, to the host open
computation. -/
theorem C3_counterexample :
    vtab_best_index (fun (_ : Unit) _ => Except.ok
        ({ idxNum := 7, estimatedCost := 42, estimatedRows := 42 } :
          VTableIndexOutput)) ()
        ({ aConstraint := [], aOrderBy := [], idxNum := 5,
           estimatedCost := 3, estimatedRows := 3 } : NativeIndexInfo)
      = .ok { aConstraint := [], aOrderBy := [], idxNum := 0,
              estimatedCost := 1000000, estimatedRows := 1000000 } ∧
    (vtab_filter (fun (_ : Unit) (i : Int) (_ : List Value) => Except.ok i)
        () none 0 []).2.2
      = (0, []) ∧
    (0 : Int) ≠ 7 := by
  refine ⟨rfl, rfl, ?_⟩
  decide

/-- C3 amended: the plan index the cursor filter hands to the host open
computation is exactly the native plan index the engine passes to filter;
best-index always sets that native plan index to 0 (the fixed full-scan
plan, with cost estimate 1000000 and row estimate 1000000), ignoring the
plan index the planner computation returned. -/
theorem C3_amended {τ σ : Type}
    (best_index_fn : τ → VTableIndexInfo → Except Unit VTableIndexOutput)
    (open_fn : τ → Int → List Value → Except Unit σ)
    (table_data : τ) (p : NativeIndexInfo) (output : VTableIndexOutput)
    (h : best_index_fn table_data (build_index_info p) = .ok output)
    (cursor_state : Option σ) (idxNum : Int) (args : List SqliteValue) :
    vtab_best_index best_index_fn table_data p
      = .ok ⟨p.aConstraint, p.aOrderBy, 0, 1000000, 1000000⟩ ∧
    (vtab_filter open_fn table_data cursor_state idxNum args).2.2
      = (idxNum, build_args_array args) := by
  constructor
  · unfold vtab_best_index
    rw [h]
    rfl
  · unfold vtab_filter
    cases open_fn table_data idxNum (build_args_array args) <;> rfl

/-- Witness for C3 amended at a concrete planner and cursor opener. -/
theorem C3_amended_witness :
    vtab_best_index (fun (_ : Unit) _ => Except.ok
        ({ idxNum := 7, estimatedCost := 42, estimatedRows := 42 } :
          VTableIndexOutput)) ()
        ({ aConstraint := [], aOrderBy := [], idxNum := 5,
           estimatedCost := 3, estimatedRows := 3 } : NativeIndexInfo)
      = .ok { aConstraint := [], aOrderBy := [], idxNum := 0,
              estimatedCost := 1000000, estimatedRows := 1000000 } ∧
    (vtab_filter (fun (_ : Unit) (i : Int) (_ : List Value) => Except.ok i)
        () (some (3 : Int)) 9 [SqliteValue.null]).2.2
      = (9, [Value.null]) :=
  C3_amended (fun _ _ => Except.ok
      { idxNum := 7, estimatedCost := 42, estimatedRows := 42 })
    (fun _ i _ => Except.ok i) ()
    { aConstraint := [], aOrderBy := [], idxNum := 5,
      estimatedCost := 3, estimatedRows := 3 }
    { idxNum := 7, estimatedCost := 42, estimatedRows := 42 } rfl
    (some 3) 9 [SqliteValue.null]

/-- C4 counterexample: the claim says each translated constraint keeps the
column index exactly as given by the engine.  A rowid constraint has
engine column index -1; the translation clamps it to 0. -/
theorem C4_counterexample :
    (build_index_info
        { aConstraint := [{ iColumn := -1, op := 2, usable := true }]
          aOrderBy := [], idxNum := 0, estimatedCost := 0,
          estimatedRows := 0 }).constraints.map
        (fun c => (c.column : Int))
      = [0] ∧
    ([0] : List Int) ≠ [-1] ∧
    ({ aConstraint := [{ iColumn := -1, op := 2, usable := true }]
       aOrderBy := [], idxNum := 0, estimatedCost := 0,
       estimatedRows := 0 } : NativeIndexInfo).aConstraint.map
        (fun c => c.iColumn)
      = [-1] := by
  refine ⟨by decide, by decide, by decide⟩

/-- C4 amended: for every native index-info whose constraint and order-by
column indices are nonnegative (below 2 to the 63rd, as every engine int
is), the translated planner input preserves the constraint count, each
constraint column, operator and usability flag, and each order-by column
and descending flag, exactly; a rowid constraint (engine column -1) is
the one exception, translated to column 0. -/
theorem C4_amended (p : NativeIndexInfo)
    (hc : ∀ c ∈ p.aConstraint, 0 ≤ c.iColumn)
    (ho : ∀ o ∈ p.aOrderBy, 0 ≤ o.iColumn ∧ o.iColumn < 2 ^ 63) :
    (build_index_info p).constraints.length = p.aConstraint.length ∧
    (build_index_info p).constraints.map
        (fun c => ((c.column : Int), c.op, c.usable))
      = p.aConstraint.map (fun c => (c.iColumn, c.op, c.usable)) ∧
    (build_index_info p).orderBy.length = p.aOrderBy.length ∧
    (build_index_info p).orderBy.map (fun o => ((o.column : Int), o.desc))
      = p.aOrderBy.map (fun o => (o.iColumn, o.desc)) := by
  refine ⟨?_, ?_, ?_, ?_⟩
  · simp [build_index_info]
  · simp only [build_index_info, List.map_map]
    refine List.map_congr_left ?_
    intro c hcmem
    have h0 := hc c hcmem
    simp only [Function.comp]
    rw [if_pos h0, Int.toNat_of_nonneg h0]
  · simp [build_index_info]
  · simp only [build_index_info, List.map_map]
    refine List.map_congr_left ?_
    intro o homem
    obtain ⟨h0, h1⟩ := ho o homem
    simp only [Function.comp]
    rw [Int.emod_eq_of_lt h0 h1, Int.toNat_of_nonneg h0]

/-- Witness for C4 amended on a two-constraint, one-order-by input. -/
theorem C4_amended_witness :
    (build_index_info
        { aConstraint := [{ iColumn := 0, op := 2, usable := true },
                          { iColumn := 3, op := 4, usable := false }]
          aOrderBy := [{ iColumn := 1, desc := true }]
          idxNum := 0, estimatedCost := 0, estimatedRows := 0 }).constraints.map
        (fun c => ((c.column : Int), c.op, c.usable))
      = [((0 : Int), 2, true), ((3 : Int), 4, false)] ∧
    (build_index_info
        { aConstraint := [{ iColumn := 0, op := 2, usable := true },
                          { iColumn := 3, op := 4, usable := false }]
          aOrderBy := [{ iColumn := 1, desc := true }]
          idxNum := 0, estimatedCost := 0, estimatedRows := 0 }).orderBy.map
        (fun o => ((o.column : Int), o.desc))
      = [((1 : Int), true)] := by
  have h := C4_amended
    { aConstraint := [{ iColumn := 0, op := 2, usable := true },
                      { iColumn := 3, op := 4, usable := false }]
      aOrderBy := [{ iColumn := 1, desc := true }]
      idxNum := 0, estimatedCost := 0, estimatedRows := 0 }
    (by decide) (by decide)
  exact ⟨h.2.1, h.2.2.2⟩

/-! ## Virtual table module: mutation adapter -/

/-- The tagged mutation operation handed to the host mutation computation,
as documented in the C file: tag 0 = delete, 1 = insert, 2 = update. -/
inductive VTableUpdateOp where
  | delete (rowid : Int) : VTableUpdateOp
  | insert (rowid : Option Int) (values : List Value) : VTableUpdateOp
  | update (oldRowid : Int) (newRowid : Int) (values : List Value) : VTableUpdateOp
  deriving DecidableEq

/-- Embeds sqlite3_value_type(v) == SQLITE_NULL. -/
def SqliteValue.isNull : SqliteValue → Bool
  | .null => true
  | _ => false

/-- Embeds sqlite3_value_int64 as the bridge uses it: the engine hands an
integer (or NULL, which coerces to 0) in every rowid position of a
mutation call.  Coercion of other kinds is engine behaviour outside this
repository and is not exercised by the theorems below. -/
def value_int64 : SqliteValue → Int
  | .integer n => n
  | _ => 0

/-- Outcome of a native mutation call: the engine status code (0 =
SQLITE_OK, 1 = SQLITE_ERROR, 8 = SQLITE_READONLY), the error message set
on the table, the operation handed to the host mutation computation
(none when it was never invoked), and the row id written back through
pRowid. -/
structure UpdateResult where
  rc : Int
  errMsg : Option String
  invoked : Option VTableUpdateOp
  pRowid : Option Int
  deriving DecidableEq

/-- Embeds the call-shape classification of vtab_update: one argument is a
Delete of that row id; otherwise a NULL first argument is an Insert with
an optional explicit row id from the second argument and the converted
values from the third argument on; a non-NULL first argument is an Update
with old and new row ids from the first two arguments and the converted
values from the third argument on.  The engine never passes an empty
argument list. -/
def classify_update (args : List SqliteValue) : Option VTableUpdateOp :=
  match args with
  | [] => none
  | [a] => some (.delete (value_int64 a))
  | a :: b :: rest =>
    if a.isNull then
      some (.insert
        (match b with
         | .null => none
         | v => some (value_int64 v))
        (build_args_array rest))
    else
      some (.update (value_int64 a) (value_int64 b) (build_args_array rest))

/-- Embeds vtab_update.  Without a mutation capability (the stored update
function is the none tag) every call fails with SQLITE_READONLY and the
host is never invoked.  Otherwise the classified operation is handed to
the single host mutation computation; host failure yields SQLITE_ERROR;
on success a returned row id is written back through pRowid via
lean_int64_of_int, which wraps into the signed 64-bit range. -/
def vtab_update :
    Option (VTableUpdateOp → Except Unit (Option Int)) → List SqliteValue →
    UpdateResult
  | none, _ =>
      { rc := 8, errMsg := some ("Virtual table is read-only"),
        invoked := none, pRowid := none }
  | some f, args =>
    match classify_update args with
    | none =>
        { rc := 1, errMsg := none, invoked := none, pRowid := none }
    | some op =>
      match f op with
      | .error _ =>
          { rc := 1, errMsg := some ("Virtual table update failed"),
            invoked := some op, pRowid := none }
      | .ok none =>
          { rc := 0, errMsg := none, invoked := some op, pRowid := none }
      | .ok (some r) =>
          { rc := 0, errMsg := none, invoked := some op,
            pRowid := some (toInt64 r) }

theorem vtab_update_invoked
    (f : VTableUpdateOp → Except Unit (Option Int)) (args : List SqliteValue) :
    (vtab_update (some f) args).invoked = classify_update args := by
  cases h : classify_update args with
  | none => simp only [vtab_update, h]
  | some op =>
    cases hf : f op with
    | error e => simp only [vtab_update, h, hf]
    | ok o => cases o <;> simp only [vtab_update, h, hf]

/-- C5: with a mutation capability present, the adapter classifies the
three native call shapes as Delete, Insert and Update exactly as the
claim states, and invokes the host mutation computation with exactly that
tagged operation. -/
theorem C5_mutation_classification
    (f : VTableUpdateOp → Except Unit (Option Int)) :
    (∀ r : Int, (vtab_update (some f) [SqliteValue.integer r]).invoked
        = some (.delete r)) ∧
    (∀ (b : SqliteValue) (rest : List SqliteValue),
      (vtab_update (some f) (SqliteValue.null :: b :: rest)).invoked
        = some (.insert
            (match b with
             | .null => none
             | v => some (value_int64 v))
            (build_args_array rest))) ∧
    (∀ (a b : SqliteValue) (rest : List SqliteValue),
      a.isNull = false →
      (vtab_update (some f) (a :: b :: rest)).invoked
        = some (.update (value_int64 a) (value_int64 b)
            (build_args_array rest))) := by
  refine ⟨?_, ?_, ?_⟩
  · intro r
    rw [vtab_update_invoked]
    rfl
  · intro b rest
    rw [vtab_update_invoked]
    rfl
  · intro a b rest ha
    rw [vtab_update_invoked]
    simp only [classify_update, ha]
    rfl

/-- Witness for C5 on concrete calls: a delete of row 4, an insert with
explicit row id 9 and one value, and an update of row 1 to row 2. -/
theorem C5_mutation_classification_witness :
    (vtab_update (some (fun _ => Except.ok none))
        [SqliteValue.integer 4]).invoked
      = some (.delete 4) ∧
    (vtab_update (some (fun _ => Except.ok none))
        [SqliteValue.null, SqliteValue.integer 9, SqliteValue.text []]).invoked
      = some (.insert (some 9) [Value.text []]) ∧
    (vtab_update (some (fun _ => Except.ok none))
        [SqliteValue.integer 1, SqliteValue.integer 2, SqliteValue.null]).invoked
      = some (.update 1 2 [Value.null]) := by
  have h := C5_mutation_classification (fun _ => Except.ok none)
  exact ⟨h.1 4,
         h.2.1 (SqliteValue.integer 9) [SqliteValue.text []],
         h.2.2 (SqliteValue.integer 1) (SqliteValue.integer 2)
           [SqliteValue.null] rfl⟩

/-- C6: for a table registered without a mutation capability, every native
mutation call of any shape fails with SQLITE_READONLY and the read-only
error message, and the host mutation computation is never invoked. -/
theorem C6_readonly_rejection (args : List SqliteValue) :
    vtab_update none args
      = { rc := 8, errMsg := some ("Virtual table is read-only"),
          invoked := none, pRowid := none } := rfl

/-! ## Backup and blob session wrappers

Each wrapper pairs the native session pointer (modelled by a Bool that is
true while the pointer is non-null) with the explicit already-finished
flag.  Each operation returns its host-visible result, the updated
wrapper, and a Bool recording whether the corresponding native engine
entry point was actually called on the wrapped resource; native status
codes are supplied as parameters since the engine is an external
collaborator. -/

/-- Embeds BackupWrapper: the native backup pointer (present or released)
and the explicit finished flag. -/
structure BackupWrapper where
  backup : Bool
  finished : Bool
  deriving DecidableEq

/-- Embeds quarry_backup_step.  A wrapper whose pointer is gone or whose
finished flag is set fails with the invalid-handle error without touching
the native backup; otherwise sqlite3_backup_step runs and its status code
is returned. -/
def quarry_backup_step (native_rc : Int) (w : BackupWrapper) (nPages : Int) :
    Except String Int × BackupWrapper × Bool :=
  let _ := nPages
  if !w.backup || w.finished then
    (.error ("Backup handle is invalid or already finished"), w, false)
  else
    (.ok native_rc, w, true)

/-- Embeds quarry_backup_finish.  A second call after the terminal
operation returns success (code 0) without calling the native finish
again; the first call runs sqlite3_backup_finish, clears the pointer and
sets the finished flag, returning the native status code. -/
def quarry_backup_finish (native_rc : Int) (w : BackupWrapper) :
    Except String Int × BackupWrapper × Bool :=
  if w.finished then
    (.ok 0, w, false)
  else
    (.ok native_rc, { backup := false, finished := true }, true)

/-- Embeds BlobWrapper: the native blob pointer (present or released) and
the explicit closed flag. -/
structure BlobWrapper where
  blob : Bool
  closed : Bool
  deriving DecidableEq

/-- Embeds quarry_blob_close.  A second call after the terminal operation
returns success without calling the native close again; the first call
runs sqlite3_blob_close, clears the pointer and sets the closed flag, and
reports an error only if the native close fails. -/
def quarry_blob_close (native_rc : Int) (w : BlobWrapper) :
    Except String Unit × BlobWrapper × Bool :=
  if w.closed then
    (.ok (), w, false)
  else if native_rc = 0 then
    (.ok (), { blob := false, closed := true }, true)
  else
    (.error ("Blob close failed"), { blob := false, closed := true }, true)

/-- Embeds quarry_blob_read.  On a released or closed wrapper it fails
with the invalid-handle error without touching the native blob; otherwise
the native read runs, returning the bytes on success. -/
def quarry_blob_read (native_rc : Int) (native_bytes : List Nat)
    (w : BlobWrapper) (offset size : Nat) :
    Except String (List Nat) × BlobWrapper × Bool :=
  let _ := offset
  let _ := size
  if !w.blob || w.closed then
    (.error ("Blob handle is invalid or closed"), w, false)
  else if native_rc = 0 then
    (.ok native_bytes, w, true)
  else
    (.error ("Blob read failed"), w, true)

/-- Embeds quarry_blob_write.  On a released or closed wrapper it fails
with the invalid-handle error without touching the native blob. -/
def quarry_blob_write (native_rc : Int) (w : BlobWrapper) (offset : Nat)
    (data : List Nat) :
    Except String Unit × BlobWrapper × Bool :=
  let _ := offset
  let _ := data
  if !w.blob || w.closed then
    (.error ("Blob handle is invalid or closed"), w, false)
  else if native_rc = 0 then
    (.ok (), w, true)
  else
    (.error ("Blob write failed"), w, true)

/-- Embeds quarry_blob_reopen.  On a released or closed wrapper it fails
with the invalid-handle error without touching the native blob. -/
def quarry_blob_reopen (native_rc : Int) (w : BlobWrapper) (rowid : Int) :
    Except String Unit × BlobWrapper × Bool :=
  let _ := rowid
  if !w.blob || w.closed then
    (.error ("Blob handle is invalid or closed"), w, false)
  else if native_rc = 0 then
    (.ok (), w, true)
  else
    (.error ("Blob reopen failed"), w, true)

/-- C8: for every backup or blob session, the terminal operation is
idempotent (a second call returns success and does not release the native
resource again: the native-call flag is false and the wrapper is
unchanged), and every non-terminal operation after the terminal call
fails with the invalid-handle error without touching the released
resource. -/
theorem C8_terminal_idempotence
    (b : BackupWrapper) (hb : b.finished = true)
    (v : BlobWrapper) (hv : v.closed = true)
    (rc : Int) (nPages : Int) (bytes : List Nat)
    (offset size : Nat) (data : List Nat) (rowid : Int) :
    quarry_backup_finish rc b = (.ok 0, b, false) ∧
    quarry_backup_step rc b nPages
      = (.error ("Backup handle is invalid or already finished"), b, false) ∧
    quarry_blob_close rc v = (.ok (), v, false) ∧
    quarry_blob_read rc bytes v offset size
      = (.error ("Blob handle is invalid or closed"), v, false) ∧
    quarry_blob_write rc v offset data
      = (.error ("Blob handle is invalid or closed"), v, false) ∧
    quarry_blob_reopen rc v rowid
      = (.error ("Blob handle is invalid or closed"), v, false) ∧
    (quarry_backup_finish rc { backup := true, finished := false }).2.1
      = { backup := false, finished := true } ∧
    (quarry_blob_close 0 { blob := true, closed := false }).2.1
      = { blob := false, closed := true } := by
  refine ⟨?_, ?_, ?_, ?_, ?_, ?_, rfl, rfl⟩
  · unfold quarry_backup_finish
    rw [hb]
    rfl
  · unfold quarry_backup_step
    rw [hb]
    simp
  · unfold quarry_blob_close
    rw [hv]
    rfl
  · unfold quarry_blob_read
    rw [hv]
    simp
  · unfold quarry_blob_write
    rw [hv]
    simp
  · unfold quarry_blob_reopen
    rw [hv]
    simp

/-- Witness for C8: a backup session is finished once and a blob session
is closed once, then the terminal operations are repeated and the
non-terminal operations attempted, all on the concretely released
wrappers. -/
theorem C8_terminal_idempotence_witness :
    quarry_backup_finish 0 { backup := false, finished := true }
      = (.ok 0, { backup := false, finished := true }, false) ∧
    quarry_backup_step 0 { backup := false, finished := true } (-1)
      = (.error ("Backup handle is invalid or already finished"),
         { backup := false, finished := true }, false) ∧
    quarry_blob_close 0 { blob := false, closed := true }
      = (.ok (), { blob := false, closed := true }, false) ∧
    quarry_blob_read 0 [7] { blob := false, closed := true } 0 1
      = (.error ("Blob handle is invalid or closed"),
         { blob := false, closed := true }, false) ∧
    quarry_blob_write 0 { blob := false, closed := true } 0 [7]
      = (.error ("Blob handle is invalid or closed"),
         { blob := false, closed := true }, false) ∧
    quarry_blob_reopen 0 { blob := false, closed := true } 2
      = (.error ("Blob handle is invalid or closed"),
         { blob := false, closed := true }, false) ∧
    (quarry_backup_finish 0 { backup := true, finished := false }).2.1
      = { backup := false, finished := true } ∧
    (quarry_blob_close 0 { blob := true, closed := false }).2.1
      = { blob := false, closed := true } :=
  C8_terminal_idempotence { backup := false, finished := true } rfl
    { blob := false, closed := true } rfl 0 (-1) [7] 0 1 [7] 2

/-! ## Virtual table module: cursor operations -/

/-- A reference-count event on a host cursor-state value: lean_inc is
retain, lean_dec is release.  The traces below record only the events on
cursor-state objects, in program order. -/
inductive RcEvent (σ : Type) where
  | retain (s : σ) : RcEvent σ
  | release (s : σ) : RcEvent σ
  deriving DecidableEq

/-- Embeds vtab_next.  Without a state reference the call fails (status 1
= SQLITE_ERROR).  With state s, a reference to s is retained for the host
call; on success the new state is retained, only then is the old state
released, and the slot is replaced with the new value; on failure the
slot keeps the previous state.  Returns the status code, the new slot
content, and the ordered trace of reference-count events. -/
def vtab_next {σ : Type} (next_fn : σ → Except Unit σ) :
    Option σ → Int × Option σ × List (RcEvent σ)
  | none => (1, none, [])
  | some s =>
    match next_fn s with
    | .error _ => (1, some s, [.retain s])
    | .ok s2 => (0, some s2, [.retain s, .retain s2, .release s])

/-- Embeds vtab_eof.  Without a state reference it reports end-of-data
(native 1 = true) without invoking the host predicate; with state it runs
the host predicate, defaulting to end-of-data when the host fails.  The
Bool records whether the host computation was invoked. -/
def vtab_eof {σ : Type} (eof_fn : σ → Except Unit Bool)
    (cursor_state : Option σ) : Int × Bool :=
  match cursor_state with
  | none => (1, false)
  | some s =>
    match eof_fn s with
    | .ok b => (if b then 1 else 0, true)
    | .error _ => (1, true)

/-- Embeds vtab_column.  Without a state reference it sets the native
NULL result and returns SQLITE_OK without invoking the host accessor;
with state it marshals the host value, or NULL when the host fails.  The
Bool records whether the host computation was invoked. -/
def vtab_column {σ : Type} (column_fn : σ → Nat → Except Unit Value)
    (cursor_state : Option σ) (iCol : Nat) : Int × SqliteValue × Bool :=
  match cursor_state with
  | none => (0, .null, false)
  | some s =>
    match column_fn s iCol with
    | .ok v => (0, lean_value_to_sqlite_result v, true)
    | .error _ => (0, .null, true)

/-- Embeds vtab_rowid.  Without a state reference it writes row id 0 and
returns SQLITE_OK without invoking the host accessor; with state it
writes the host row id (through the 64-bit conversion), or 0 when the
host fails.  The Bool records whether the host computation was
invoked. -/
def vtab_rowid {σ : Type} (rowid_fn : σ → Except Unit Int)
    (cursor_state : Option σ) : Int × Int × Bool :=
  match cursor_state with
  | none => (0, 0, false)
  | some s =>
    match rowid_fn s with
    | .ok r => (0, toInt64 r, true)
    | .error _ => (0, 0, true)

/-- C9: for a cursor holding state s, a successful advance replaces the
slot with the host result (a new value, not a mutation of s), the
reference trace retains the new state strictly before every release of
the old state, and a failed advance leaves the previous state in the
slot. -/
theorem C9_advance_replacement {σ : Type} (next_fn : σ → Except Unit σ)
    (s : σ) :
    (∀ s2, next_fn s = .ok s2 →
      vtab_next next_fn (some s)
          = (0, some s2, [.retain s, .retain s2, .release s]) ∧
      ∀ k, (vtab_next next_fn (some s)).2.2.get? k = some (.release s) →
        ∃ j, j < k ∧ (vtab_next next_fn (some s)).2.2.get? j
          = some (.retain s2)) ∧
    (∀ e, next_fn s = .error e →
      vtab_next next_fn (some s) = (1, some s, [.retain s])) := by
  constructor
  · intro s2 h
    have hv : vtab_next next_fn (some s)
        = (0, some s2, [.retain s, .retain s2, .release s]) := by
      simp only [vtab_next, h]
    refine ⟨hv, ?_⟩
    intro k hk
    rw [hv] at hk
    refine ⟨1, ?_, ?_⟩
    · match k with
      | 0 => exact absurd (Option.some.inj hk) (by simp)
      | 1 => exact absurd (Option.some.inj hk) (by simp)
      | 2 => decide
      | (n + 3) => simp [List.get?] at hk
    · rw [hv]
      rfl
  · intro e h
    simp only [vtab_next, h]

/-- Witness for C9: a concrete Nat cursor advanced by a successful host
computation from state 0 to state 1, and one whose advance fails from
state 5. -/
theorem C9_advance_replacement_witness :
    vtab_next (fun n => Except.ok (n + 1)) (some 0)
      = (0, some 1, [.retain 0, .retain 1, .release 0]) ∧
    vtab_next (fun (_ : Nat) => (Except.error () : Except Unit Nat)) (some 5)
      = (1, some 5, [.retain 5]) :=
  ⟨((C9_advance_replacement (fun n => Except.ok (n + 1)) 0).1 1 rfl).1,
   (C9_advance_replacement (fun _ => Except.error ()) 5).2 () rfl⟩

/-- C10: for a cursor holding no state reference, the end-of-data check
reports end-of-data without invoking the host predicate, the column
accessor succeeds with the native NULL result without invoking the host
accessor, and the row-id accessor succeeds with row id 0 without invoking
the host accessor. -/
theorem C10_stateless_cursor {σ : Type} (eof_fn : σ → Except Unit Bool)
    (column_fn : σ → Nat → Except Unit Value) (rowid_fn : σ → Except Unit Int)
    (iCol : Nat) :
    vtab_eof eof_fn none = (1, false) ∧
    vtab_column column_fn none iCol = (0, SqliteValue.null, false) ∧
    vtab_rowid rowid_fn none = (0, 0, false) :=
  ⟨rfl, rfl, rfl⟩

end Quarry
